import Mathlib

/-!
Verification of the row-conversion logic of `convertMoxToDeckboxCsv.py`.

The script converts a Moxfield card-inventory CSV into the Deckbox CSV format.
Its core is a pure function `convert_row` over one input row (a Python dict of
strings), two static lookup tables (`edition_code_map`, `edition_map`), and a
price formatter `format_price` built on Python's `decimal.Decimal`.

Shallow embedding conventions:
* A Python string-or-None value is `Option String` (`none` = Python `None`).
* A Python dict is an association list with unique keys; `dict.get k default`
  is modelled by `rowGet`, and `dict.get k` (no default) by `List.lookup`.
* Python `str.strip` / `str.upper` are modelled on ASCII characters
  (`pyStrip`, `pyUpper`); all data handled by the script's tables is ASCII.
* `decimal.Decimal` is modelled by `Dec`: construction from a string
  (`decParse`, the numeric-string grammar of the `decimal` module, with
  whitespace stripped and underscores removed as CPython does), quantization
  to two fractional digits at the default context (ROUND_HALF_EVEN,
  precision 28, `decQuantize2`), and `str()` printing (`decToString`).
  `decQuantize2` signals `InvalidOperation` (modelled as `Except.error`)
  exactly when Python's `Decimal.quantize` raises under the default context:
  on infinities, signaling NaNs, and results needing more than 28 digits.
* A Python function that can raise returns `Except DecErr _`; exceptions the
  source catches are absorbed before they surface.
-/

/-- ASCII whitespace, the characters Python's `str.strip()` removes from
ASCII text. -/
def isPySpace (c : Char) : Bool :=
  c == ' ' || c == '\t' || c == '\n' || c == '\r' || c == '\x0b' || c == '\x0c'

/-- Model of Python `str.strip()`: remove leading and trailing whitespace. -/
def pyStrip (s : String) : String :=
  String.mk (((s.data.dropWhile isPySpace).reverse.dropWhile isPySpace).reverse)

/-- Model of Python `str.upper` on one ASCII character. -/
def pyUpperChar (c : Char) : Char :=
  if 97 ≤ c.toNat ∧ c.toNat ≤ 122 then Char.ofNat (c.toNat - 32) else c

/-- Model of Python `str.upper()`. -/
def pyUpper (s : String) : String :=
  String.mk (s.data.map pyUpperChar)

/-- Model of Python `str.lower` on one ASCII character (used by the
case-insensitive numeric-string grammar of `decimal`). -/
def pyLowerChar (c : Char) : Char :=
  if 65 ≤ c.toNat ∧ c.toNat ≤ 90 then Char.ofNat (c.toNat + 32) else c

/-- A Python value that is either a string or `None`. -/
abbrev PyStr := Option String

/-- A Python dict of string keys and string-or-None values (a CSV row). -/
abbrev Row := List (String × PyStr)

/-- Model of Python `row.get(k, "")`: the stored value when the key is
present (that value may itself be `None`), the empty string otherwise. -/
def rowGet (r : Row) (k : String) : PyStr :=
  match List.lookup k r with
  | some v => v
  | none => some ""

/-- Model of the Python idiom `v or ""` for `v` a string or `None`. -/
def pyOrEmpty (v : PyStr) : String := v.getD ""

/-- How Python's `csv` writer serializes one cell value: `None` becomes the
empty field, a string is written as itself. -/
def csvField (v : PyStr) : String := v.getD ""

/-- An ASCII decimal digit. -/
def isAsciiDigit (c : Char) : Bool := decide (48 ≤ c.toNat ∧ c.toNat ≤ 57)

/-- The numeric value of a list of ASCII digits. -/
def digitsToNat (cs : List Char) : Nat :=
  cs.foldl (fun a c => 10 * a + (c.toNat - 48)) 0

/-- The character of a decimal digit. -/
def digitChar (d : Nat) : Char := Char.ofNat (48 + d)

/-- Fuel-driven digit expansion; `natDigits` supplies enough fuel that the
fuel never runs out. -/
def natDigitsAux : Nat → Nat → List Char
  | 0, _ => []
  | fuel + 1, n =>
    if n < 10 then [digitChar n]
    else natDigitsAux fuel (n / 10) ++ [digitChar (n % 10)]

/-- The decimal digit characters of `n`, most significant first ("0" for 0),
as printed by Python for an integer coefficient. -/
def natDigits (n : Nat) : List Char := natDigitsAux (n + 1) n

/-- Model of a `decimal.Decimal` value: finite (sign, coefficient, exponent),
an infinity, or a NaN (optionally signaling, with a numeric diagnostic whose
leading zeros Python discards). `sign = true` means negative. -/
inductive Dec where
  | finite (sign : Bool) (coeff : Nat) (exp : Int)
  | infinite (sign : Bool)
  | nan (sign : Bool) (signaling : Bool) (diag : Nat)
deriving DecidableEq, Repr

/-- The `decimal` module exception relevant here: `InvalidOperation`. -/
inductive DecErr where
  | invalidOperation
deriving DecidableEq, Repr

/-- Parse an optional leading sign; `true` means a `-` was read. -/
def parseSign : List Char → Bool × List Char
  | '-' :: rest => (true, rest)
  | '+' :: rest => (false, rest)
  | cs => (false, cs)

/-- Parse the optional exponent clause `E[sign]digits` of a numeric string;
the clause must consume the whole remaining input (`none` = no match). -/
def parseExpPart : List Char → Option Int
  | [] => some 0
  | c :: rest =>
    if pyLowerChar c == 'e' then
      let (es, rest2) := parseSign rest
      let (ds, rest3) := rest2.span isAsciiDigit
      if ds.isEmpty || !rest3.isEmpty then none
      else some (if es then -(digitsToNat ds : Int) else (digitsToNat ds : Int))
    else none

/-- Parse the digits of a numeric string after the sign: integer part,
optional fractional part (at least one digit in total), optional exponent.
Returns the coefficient and the exponent of the `Decimal`. -/
def parseNumeric (cs : List Char) : Option (Nat × Int) :=
  let (ip, r1) := cs.span isAsciiDigit
  match r1 with
  | '.' :: r2 =>
    let (fp, r3) := r2.span isAsciiDigit
    if ip.isEmpty && fp.isEmpty then none
    else
      match parseExpPart r3 with
      | some e => some (digitsToNat (ip ++ fp), e - fp.length)
      | none => none
  | _ =>
    if ip.isEmpty then none
    else
      match parseExpPart r1 with
      | some e => some (digitsToNat ip, e)
      | none => none

/-- Parse the body of a numeric string after the sign: a number, an
infinity (`Inf`/`Infinity`, case-insensitive), or a NaN (`NaN`/`sNaN` with
optional digit diagnostic). -/
def parseAfterSign (sg : Bool) (cs : List Char) : Option Dec :=
  match parseNumeric cs with
  | some (c, e) => some (.finite sg c e)
  | none =>
    let ls := cs.map pyLowerChar
    if ls == "inf".data || ls == "infinity".data then some (.infinite sg)
    else
      match ls with
      | 'n' :: 'a' :: 'n' :: ds =>
        if ds.all isAsciiDigit then some (.nan sg false (digitsToNat ds)) else none
      | 's' :: 'n' :: 'a' :: 'n' :: ds =>
        if ds.all isAsciiDigit then some (.nan sg true (digitsToNat ds)) else none
      | _ => none

/-- Model of `decimal.Decimal(s)` for a string argument: CPython strips
whitespace, removes underscores, then matches the numeric-string grammar;
`none` models the `InvalidOperation` raised on a malformed string (which
`format_price` catches). -/
def decParse (s : String) : Option Dec :=
  let cs := (pyStrip s).data.filter (fun c => c != '_')
  let (sg, rest) := parseSign cs
  parseAfterSign sg rest

/-- Divide `c` by `10 ^ k`, rounding half to even (ROUND_HALF_EVEN). -/
def halfEvenDiv (c k : Nat) : Nat :=
  let p := 10 ^ k
  let q := c / p
  let r := c % p
  if 2 * r < p then q
  else if p < 2 * r then q + 1
  else if q % 2 == 0 then q else q + 1

/-- Model of `d.quantize(Decimal("0.01"))` under the default context:
rescale to exponent `-2` with half-even rounding; `InvalidOperation` on an
infinity, on a signaling NaN, and when the resulting coefficient needs more
than 28 digits — the default precision — which for a natural number means
being `≥ 10 ^ 28`; a quiet NaN passes through. -/
def decQuantize2 : Dec → Except DecErr Dec
  | .infinite _ => .error .invalidOperation
  | .nan _ true _ => .error .invalidOperation
  | .nan sg false d => .ok (.nan sg false d)
  | .finite sg c e =>
    let c2 := if -2 ≤ e then c * 10 ^ (e + 2).toNat else halfEvenDiv c (-(e + 2)).toNat
    if 10 ^ 28 ≤ c2 then .error .invalidOperation
    else .ok (.finite sg c2 (-2))

/-- Model of Python `str()` on a `Decimal`: positional notation when the
exponent is `≤ 0` and the adjusted exponent is `> -7`, scientific notation
otherwise; `[-]Infinity`, `[-][s]NaN[diag]` for specials. -/
def decToString : Dec → String
  | .infinite sg => (if sg then "-" else "") ++ "Infinity"
  | .nan sg signaling d =>
    (if sg then "-" else "") ++ (if signaling then "sNaN" else "NaN") ++
      (if d == 0 then "" else String.mk (natDigits d))
  | .finite sg c e =>
    let ds := natDigits c
    let n : Int := ds.length
    let leftdigits := e + n
    let dotplace := if e ≤ 0 ∧ -6 < leftdigits then leftdigits else 1
    let intpart : List Char :=
      if dotplace ≤ 0 then ['0']
      else if n ≤ dotplace then ds ++ List.replicate (dotplace - n).toNat '0'
      else ds.take dotplace.toNat
    let fracpart : List Char :=
      if dotplace ≤ 0 then '.' :: (List.replicate (-dotplace).toNat '0' ++ ds)
      else if n ≤ dotplace then []
      else '.' :: ds.drop dotplace.toNat
    let exppart : List Char :=
      if leftdigits == dotplace then []
      else 'E' :: ((if 0 ≤ leftdigits - dotplace then "+" else "").data
                    ++ (toString (leftdigits - dotplace)).data)
    (if sg then "-" else "") ++ String.mk (intpart ++ fracpart ++ exppart)

/-- The script's `format_price`: `None` or `""` gives `"$0.00"`; otherwise
strip, drop one leading `$` and strip again, construct a `Decimal` (a
construction failure is caught and gives `"$0.00"`), then quantize to two
fractional digits — the quantize step is outside the `try`, so its
`InvalidOperation` propagates (`Except.error`) — and prepend `$`. -/
def format_price (value : PyStr) : Except DecErr String :=
  match value with
  | none => .ok "$0.00"
  | some v =>
    if v == "" then .ok "$0.00"
    else
      let s := pyStrip v
      let s2 := match s.data with
        | '$' :: rest => pyStrip (String.mk rest)
        | _ => s
      match decParse s2 with
      | none => .ok "$0.00"
      | some d =>
        match decQuantize2 d with
        | .error err => .error err
        | .ok q => .ok ("$" ++ decToString q)

/-- The script's `edition_code_map`: Moxfield edition code to Deckbox
edition code, for the known exceptions. -/
def edition_code_map : List (String × String) := [
  ("PLST", "PLIST"),
  ("3ED", "3E"),
  ("F11", "FNMP"),
  ("MIR", "MI"),
  ("ICE", "IA"),
  ("ULG", "GU")
]

/-- The script's `edition_map`: Moxfield edition code to Deckbox Edition
(set name). -/
def edition_map : List (String × String) := [
  ("ISD", "Innistrad"),
  ("INR", "Innistrad Remastered"),
  ("CMM", "Commander Masters"),
  ("BLC", "Bloomburrow Commander"),
  ("TDM", "Tarkir: Dragonstorm"),
  ("OTC", "Outlaws of Thunder Junction Commander"),
  ("MH3", "Modern Horizons 3"),
  ("M13", "Magic 2013"),
  ("DSK", "Duskmourn: House of Horror"),
  ("EOE", "Edge of Eternities"),
  ("M3C", "Modern Horizons 3 Commander"),
  ("TDC", "Tarkir: Dragonstorm Commander"),
  ("AVR", "Avacyn Restored"),
  ("MRD", "Mirrodin"),
  ("LTR", "The Lord of the Rings: Tales of Middle-earth"),
  ("ONE", "Phyrexia: All Will Be One"),
  ("MKC", "Murders at Karlov Manor Commander"),
  ("BLB", "Bloomburrow"),
  ("EOC", "Edge of Eternities Commander"),
  ("LTC", "The Lord of the Rings: Tales of Middle-earth Commander"),
  ("C20", "Commander 2020"),
  ("SLD", "Secret Lair Drop Series"),
  ("DKA", "Dark Ascension"),
  ("LCC", "The Lost Caverns of Ixalan Commander"),
  ("EOS", "Edge of Eternities: Stellar Sights"),
  ("FDN", "Foundations"),
  ("CLU", "Ravnica: Clue Edition"),
  ("SCG", "Scourge"),
  ("3ED", "Revised Edition"),
  ("PLST", "The List"),
  ("C21", "Commander 2021"),
  ("M14", "Magic 2014 Core Set"),
  ("M12", "Magic 2012"),
  ("2X2", "Double Masters 2022"),
  ("FNMP", "Friday Night Magic"),
  ("DOM", "Dominaria"),
  ("DSC", "Duskmourn: House of Horror Commander"),
  ("AKH", "Amonkhet"),
  ("SOM", "Scars of Mirrodin"),
  ("SPG", "Special Guests"),
  ("RVR", "Ravnica Remastered"),
  ("C13", "Commander 2013"),
  ("TOR", "Torment"),
  ("DIS", "Dissension"),
  ("OGW", "Oath of the Gatewatch"),
  ("MBS", "Mirrodin Besieged"),
  ("MH2", "Modern Horizons 2"),
  ("HOU", "Hour of Devastation"),
  ("BRR", "The Brothers\x27 War Retro Artifacts"),
  ("40K", "Warhammer 40,000"),
  ("MH1", "Modern Horizons"),
  ("SCD", "Starter Commander Decks"),
  ("2XM", "Double Masters"),
  ("F11", "Friday Night Magic"),
  ("MIR", "Mirage"),
  ("ICE", "Ice Age"),
  ("ULG", "Urza\x27s Legacy")
]

/-- The script's `output_columns`, in the exact output order. -/
def output_columns : List String := [
  "Count",
  "Tradelist Count",
  "Name",
  "Edition",
  "Edition Code",
  "Card Number",
  "Condition",
  "Language",
  "Foil",
  "Signed",
  "Artist Proof",
  "Altered Art",
  "Misprint",
  "Promo",
  "Textless",
  "Printing Id",
  "Printing Note",
  "Tags",
  "My Price"
]

/-- The normalized edition code of a row: line 130 of the script,
`(old_row.get("Edition", "") or "").strip().upper()`. -/
def normEdition (r : Row) : String :=
  pyUpper (pyStrip (pyOrEmpty (rowGet r "Edition")))

/-- The script's `convert_row`: build the output dict over `output_columns`
(insertion order is the column order) and fill every field; `Edition` comes
from `edition_map.get(code.upper())` (no default, so an absent code gives
Python `None`), `Edition Code` from `edition_code_map.get(code, code)`, and
`My Price` from `format_price`, whose uncaught `InvalidOperation` (from the
quantize step) propagates out of `convert_row`. -/
def convert_row (old_row : Row) : Except DecErr Row :=
  let count := rowGet old_row "Count"
  let name := rowGet old_row "Name"
  let edition_code := normEdition old_row
  let collector_num := rowGet old_row "Collector Number"
  let condition := rowGet old_row "Condition"
  let language := rowGet old_row "Language"
  let foil := rowGet old_row "Foil"
  let tags := rowGet old_row "Tags"
  let purchase_price := rowGet old_row "Purchase Price"
  match format_price purchase_price with
  | .error err => .error err
  | .ok price =>
    .ok [
      ("Count", count),
      ("Tradelist Count", some "0"),
      ("Name", name),
      ("Edition", List.lookup (pyUpper edition_code) edition_map),
      ("Edition Code", some ((List.lookup edition_code edition_code_map).getD edition_code)),
      ("Card Number", collector_num),
      ("Condition", condition),
      ("Language", language),
      ("Foil", foil),
      ("Signed", some ""),
      ("Artist Proof", some ""),
      ("Altered Art", some ""),
      ("Misprint", some ""),
      ("Promo", some ""),
      ("Textless", some ""),
      ("Printing Id", some ""),
      ("Printing Note", some ""),
      ("Tags", tags),
      ("My Price", some price)
    ]

/-- The nine input columns `convert_row` reads. -/
def recognized_keys : List String :=
  ["Count", "Name", "Edition", "Collector Number", "Condition",
   "Language", "Foil", "Tags", "Purchase Price"]

/-- Test that a string is a dollar sign followed by a decimal with exactly
two fractional digits: the first character is `$` and the last three
characters are `.` then two digits. -/
def isDollarTwoFrac (s : String) : Bool :=
  (match s.data with
   | '$' :: _ => true
   | _ => false) &&
  (match s.data.reverse with
   | u :: t :: p :: _ => isAsciiDigit u && isAsciiDigit t && p == '.'
   | _ => false)

/-- Output row of `convert_row` on the row whose only key is
`Edition ↦ "ZZZ"`. -/
def c1_out : Row := [
  ("Count", some ""), ("Tradelist Count", some "0"), ("Name", some ""),
  ("Edition", none), ("Edition Code", some "ZZZ"), ("Card Number", some ""),
  ("Condition", some ""), ("Language", some ""), ("Foil", some ""),
  ("Signed", some ""), ("Artist Proof", some ""), ("Altered Art", some ""),
  ("Misprint", some ""), ("Promo", some ""), ("Textless", some ""),
  ("Printing Id", some ""), ("Printing Note", some ""), ("Tags", some ""),
  ("My Price", some "$0.00")]

/-- Output row of `convert_row` on the row whose only key is
`Edition ↦ "3ED"`. -/
def c4_out : Row := [
  ("Count", some ""), ("Tradelist Count", some "0"), ("Name", some ""),
  ("Edition", some "Revised Edition"), ("Edition Code", some "3E"),
  ("Card Number", some ""), ("Condition", some ""), ("Language", some ""),
  ("Foil", some ""), ("Signed", some ""), ("Artist Proof", some ""),
  ("Altered Art", some ""), ("Misprint", some ""), ("Promo", some ""),
  ("Textless", some ""), ("Printing Id", some ""), ("Printing Note", some ""),
  ("Tags", some ""), ("My Price", some "$0.00")]

/-- Output row of `convert_row` on the row whose only key is
`Edition ↦ " mir "`. -/
def c5_out : Row := [
  ("Count", some ""), ("Tradelist Count", some "0"), ("Name", some ""),
  ("Edition", some "Mirage"), ("Edition Code", some "MI"),
  ("Card Number", some ""), ("Condition", some ""), ("Language", some ""),
  ("Foil", some ""), ("Signed", some ""), ("Artist Proof", some ""),
  ("Altered Art", some ""), ("Misprint", some ""), ("Promo", some ""),
  ("Textless", some ""), ("Printing Id", some ""), ("Printing Note", some ""),
  ("Tags", some ""), ("My Price", some "$0.00")]

/-- Output row of `convert_row` on the row whose only key is
`Edition ↦ "MIR"`. -/
def c5_out_mir : Row := [
  ("Count", some ""), ("Tradelist Count", some "0"), ("Name", some ""),
  ("Edition", some "Mirage"), ("Edition Code", some "MI"),
  ("Card Number", some ""), ("Condition", some ""), ("Language", some ""),
  ("Foil", some ""), ("Signed", some ""), ("Artist Proof", some ""),
  ("Altered Art", some ""), ("Misprint", some ""), ("Promo", some ""),
  ("Textless", some ""), ("Printing Id", some ""), ("Printing Note", some ""),
  ("Tags", some ""), ("My Price", some "$0.00")]

/-- Output row of `convert_row` on the row whose only key is
`Name ↦ "Giant Growth"`. -/
def c6_out : Row := [
  ("Count", some ""), ("Tradelist Count", some "0"), ("Name", some "Giant Growth"),
  ("Edition", none), ("Edition Code", some ""), ("Card Number", some ""),
  ("Condition", some ""), ("Language", some ""), ("Foil", some ""),
  ("Signed", some ""), ("Artist Proof", some ""), ("Altered Art", some ""),
  ("Misprint", some ""), ("Promo", some ""), ("Textless", some ""),
  ("Printing Id", some ""), ("Printing Note", some ""), ("Tags", some ""),
  ("My Price", some "$0.00")]

/-- Output row of `convert_row` on the empty input row. -/
def c7_out : Row := [
  ("Count", some ""), ("Tradelist Count", some "0"), ("Name", some ""),
  ("Edition", none), ("Edition Code", some ""), ("Card Number", some ""),
  ("Condition", some ""), ("Language", some ""), ("Foil", some ""),
  ("Signed", some ""), ("Artist Proof", some ""), ("Altered Art", some ""),
  ("Misprint", some ""), ("Promo", some ""), ("Textless", some ""),
  ("Printing Id", some ""), ("Printing Note", some ""), ("Tags", some ""),
  ("My Price", some "$0.00")]

/-- The value of `Char.ofNat` on an in-range code point. -/
theorem char_toNat_ofNat (n : Nat) (h : n < 55296) : (Char.ofNat n).toNat = n := by
  have hv : n.isValidChar := Or.inl h
  simp only [Char.ofNat, hv, dif_pos]
  rfl


theorem pyUpperChar_idem (c : Char) : pyUpperChar (pyUpperChar c) = pyUpperChar c := by
  unfold pyUpperChar
  by_cases h : 97 ≤ c.toNat ∧ c.toNat ≤ 122
  · rw [if_pos h]
    have ht : (Char.ofNat (c.toNat - 32)).toNat = c.toNat - 32 :=
      char_toNat_ofNat _ (by omega)
    rw [if_neg (by omega)]
  · rw [if_neg h, if_neg h]

/-- Python's `upper` is idempotent, so the second `.upper()` on line 142 of
the script is a no-op on the already-normalized code. -/
theorem pyUpper_idem (s : String) : pyUpper (pyUpper s) = pyUpper s := by
  have hf : pyUpperChar ∘ pyUpperChar = pyUpperChar := funext pyUpperChar_idem
  unfold pyUpper
  simp [List.map_map, hf]

/-- Shape of every successful `convert_row` result: the 19 fields, in
`output_columns` order, with the values the script assigns. -/
theorem convert_row_ok_elim (r out : Row) (hok : convert_row r = Except.ok out) :
    ∃ price, format_price (rowGet r "Purchase Price") = Except.ok price ∧
      out = [
        ("Count", rowGet r "Count"),
        ("Tradelist Count", some "0"),
        ("Name", rowGet r "Name"),
        ("Edition", List.lookup (pyUpper (normEdition r)) edition_map),
        ("Edition Code", some ((List.lookup (normEdition r) edition_code_map).getD (normEdition r))),
        ("Card Number", rowGet r "Collector Number"),
        ("Condition", rowGet r "Condition"),
        ("Language", rowGet r "Language"),
        ("Foil", rowGet r "Foil"),
        ("Signed", some ""),
        ("Artist Proof", some ""),
        ("Altered Art", some ""),
        ("Misprint", some ""),
        ("Promo", some ""),
        ("Textless", some ""),
        ("Printing Id", some ""),
        ("Printing Note", some ""),
        ("Tags", rowGet r "Tags"),
        ("My Price", some price)
      ] := by
  simp only [convert_row] at hok
  cases hfp : format_price (rowGet r "Purchase Price") with
  | error e => rw [hfp] at hok; cases hok
  | ok price =>
      rw [hfp] at hok
      exact ⟨price, rfl, (Except.ok.injEq _ _).mp hok.symm⟩

/-- C9: `convert_row` is a deterministic pure function: evaluating it twice
on the same row yields identical results, and mapping the conversion twice
over the same list of rows yields identical output. -/
theorem c9_convert_row_deterministic (r : Row) (rows : List Row) :
    convert_row r = convert_row r ∧ rows.map convert_row = rows.map convert_row :=
  ⟨rfl, rfl⟩

/-- C6: in every output row produced by `convert_row`, `Tradelist Count` is
the string "0" and the eight constant columns are the empty string. -/
theorem c6_constant_fields (r out : Row) (hok : convert_row r = Except.ok out) :
    List.lookup "Tradelist Count" out = some (some "0") ∧
    List.lookup "Signed" out = some (some "") ∧
    List.lookup "Artist Proof" out = some (some "") ∧
    List.lookup "Altered Art" out = some (some "") ∧
    List.lookup "Misprint" out = some (some "") ∧
    List.lookup "Promo" out = some (some "") ∧
    List.lookup "Textless" out = some (some "") ∧
    List.lookup "Printing Id" out = some (some "") ∧
    List.lookup "Printing Note" out = some (some "") := by
  obtain ⟨price, hp, hout⟩ := convert_row_ok_elim r out hok
  subst hout
  exact ⟨rfl, rfl, rfl, rfl, rfl, rfl, rfl, rfl, rfl⟩


/-- Witness for `c6_constant_fields` at a concrete row. -/
theorem c6_constant_fields_witness :
    convert_row [("Name", some "Giant Growth")] = Except.ok c6_out ∧
    List.lookup "Tradelist Count" c6_out = some (some "0") ∧
    List.lookup "Signed" c6_out = some (some "") ∧
    List.lookup "Artist Proof" c6_out = some (some "") ∧
    List.lookup "Altered Art" c6_out = some (some "") ∧
    List.lookup "Misprint" c6_out = some (some "") ∧
    List.lookup "Promo" c6_out = some (some "") ∧
    List.lookup "Textless" c6_out = some (some "") ∧
    List.lookup "Printing Id" c6_out = some (some "") ∧
    List.lookup "Printing Note" c6_out = some (some "") :=
  ⟨rfl, c6_constant_fields [("Name", some "Giant Growth")] c6_out rfl⟩

/-- C7: every output row of `convert_row` has exactly the 19 output columns,
in the fixed order of `output_columns`, and no others — whatever extra or
missing keys the input row has. -/
theorem c7_nineteen_columns (r out : Row) (hok : convert_row r = Except.ok out) :
    out.map Prod.fst = output_columns := by
  obtain ⟨price, hp, hout⟩ := convert_row_ok_elim r out hok
  subst hout
  rfl


/-- Witness for `c7_nineteen_columns` at a concrete row (with every
recognized column missing). -/
theorem c7_nineteen_columns_witness :
    convert_row [] = Except.ok c7_out ∧ c7_out.map Prod.fst = output_columns :=
  ⟨rfl, c7_nineteen_columns [] c7_out rfl⟩

/-- C4: the output `Edition Code` is the `edition_code_map` entry for the
normalized input code when present and the normalized code itself otherwise;
in particular "3ED" maps to "3E" and "ISD" passes through as "ISD". -/
theorem c4_edition_code (r out : Row) (hok : convert_row r = Except.ok out) :
    List.lookup "Edition Code" out =
      some (some ((List.lookup (normEdition r) edition_code_map).getD (normEdition r))) ∧
    (∀ v, List.lookup (normEdition r) edition_code_map = some v →
      List.lookup "Edition Code" out = some (some v)) ∧
    (List.lookup (normEdition r) edition_code_map = none →
      List.lookup "Edition Code" out = some (some (normEdition r))) ∧
    (convert_row [("Edition", some "3ED")]).map (List.lookup "Edition Code") =
      Except.ok (some (some "3E")) ∧
    (convert_row [("Edition", some "ISD")]).map (List.lookup "Edition Code") =
      Except.ok (some (some "ISD")) := by
  obtain ⟨price, hp, hout⟩ := convert_row_ok_elim r out hok
  subst hout
  refine ⟨rfl, ?_, ?_, rfl, rfl⟩
  · intro v hv
    show some (some ((List.lookup (normEdition r) edition_code_map).getD (normEdition r))) =
      some (some v)
    rw [hv]
    rfl
  · intro hnone
    show some (some ((List.lookup (normEdition r) edition_code_map).getD (normEdition r))) =
      some (some (normEdition r))
    rw [hnone]
    rfl


/-- Witness for `c4_edition_code` at the row with Edition "3ED". -/
theorem c4_edition_code_witness :
    convert_row [("Edition", some "3ED")] = Except.ok c4_out ∧
    List.lookup "Edition Code" c4_out = some (some "3E") :=
  ⟨rfl, (c4_edition_code [("Edition", some "3ED")] c4_out rfl).1⟩

/-- C5: edition resolution is case- and surrounding-whitespace-insensitive:
two rows with the same normalized Edition code get the same output `Edition`
and `Edition Code` values; concretely, " mir " and "MIR" both give
"Mirage" / "MI". -/
theorem c5_normalization_insensitive (r1 r2 out1 out2 : Row)
    (hnorm : normEdition r1 = normEdition r2)
    (h1 : convert_row r1 = Except.ok out1) (h2 : convert_row r2 = Except.ok out2) :
    List.lookup "Edition" out1 = List.lookup "Edition" out2 ∧
    List.lookup "Edition Code" out1 = List.lookup "Edition Code" out2 ∧
    (convert_row [("Edition", some " mir ")]).map
        (fun out => (List.lookup "Edition" out, List.lookup "Edition Code" out)) =
      Except.ok (some (some "Mirage"), some (some "MI")) ∧
    (convert_row [("Edition", some "MIR")]).map
        (fun out => (List.lookup "Edition" out, List.lookup "Edition Code" out)) =
      Except.ok (some (some "Mirage"), some (some "MI")) := by
  obtain ⟨p1, hp1, ho1⟩ := convert_row_ok_elim r1 out1 h1
  obtain ⟨p2, hp2, ho2⟩ := convert_row_ok_elim r2 out2 h2
  subst ho1
  subst ho2
  refine ⟨?_, ?_, rfl, rfl⟩
  · show some (List.lookup (pyUpper (normEdition r1)) edition_map) =
      some (List.lookup (pyUpper (normEdition r2)) edition_map)
    rw [hnorm]
  · show some (some ((List.lookup (normEdition r1) edition_code_map).getD (normEdition r1))) =
      some (some ((List.lookup (normEdition r2) edition_code_map).getD (normEdition r2)))
    rw [hnorm]



/-- Witness for `c5_normalization_insensitive` at the rows " mir " / "MIR". -/
theorem c5_normalization_insensitive_witness :
    normEdition [("Edition", some " mir ")] = normEdition [("Edition", some "MIR")] ∧
    convert_row [("Edition", some " mir ")] = Except.ok c5_out ∧
    convert_row [("Edition", some "MIR")] = Except.ok c5_out_mir ∧
    List.lookup "Edition" c5_out = List.lookup "Edition" c5_out_mir ∧
    List.lookup "Edition Code" c5_out = List.lookup "Edition Code" c5_out_mir :=
  ⟨by decide, rfl, rfl,
    (c5_normalization_insensitive [("Edition", some " mir ")] [("Edition", some "MIR")]
      c5_out c5_out_mir (by decide) rfl rfl).1,
    (c5_normalization_insensitive [("Edition", some " mir ")] [("Edition", some "MIR")]
      c5_out c5_out_mir (by decide) rfl rfl).2.1⟩

/-- C1 counterexample: for the row with Edition "ZZZ" — a normalized code
absent from `edition_map` — the output `Edition` value returned by
`convert_row` is Python `None` (because line 142 calls `edition_map.get`
with no default), and `None` is not the empty string. -/
theorem c1_counterexample :
    (convert_row [("Edition", some "ZZZ")]).map (List.lookup "Edition") =
      Except.ok (some none) ∧
    List.lookup (normEdition [("Edition", some "ZZZ")]) edition_map = none ∧
    some (none : PyStr) ≠ some (some "") :=
  ⟨rfl, by decide, by decide⟩

/-- C1 amended: for every input row whose normalized Edition code is absent
from `edition_map`, the output `Edition` value returned by `convert_row` is
Python `None` — not the empty string — and the CSV writer serializes that
`None` as the empty field; the absent mapping is not an error and does not
block row processing. -/
theorem c1_absent_edition_is_none (r out : Row) (hok : convert_row r = Except.ok out)
    (habs : List.lookup (normEdition r) edition_map = none) :
    List.lookup "Edition" out = some none ∧ csvField none = "" := by
  obtain ⟨price, hp, hout⟩ := convert_row_ok_elim r out hok
  subst hout
  refine ⟨?_, rfl⟩
  show some (List.lookup (pyUpper (normEdition r)) edition_map) = some none
  have hn : pyUpper (normEdition r) = normEdition r := by
    unfold normEdition
    exact pyUpper_idem _
  rw [hn, habs]


/-- Witness for `c1_absent_edition_is_none` at the row with Edition "ZZZ". -/
theorem c1_absent_edition_is_none_witness :
    convert_row [("Edition", some "ZZZ")] = Except.ok c1_out ∧
    List.lookup (normEdition [("Edition", some "ZZZ")]) edition_map = none ∧
    (List.lookup "Edition" c1_out = some none ∧ csvField none = "") :=
  ⟨rfl, by decide,
    c1_absent_edition_is_none [("Edition", some "ZZZ")] c1_out rfl (by decide)⟩

/-- C10: the output of `convert_row` depends only on the nine recognized
input keys: two rows that agree on the value (or absence) of each of
`recognized_keys` convert to the same result, whatever other keys they
carry. -/
theorem c10_depends_only_on_recognized_keys (r1 r2 : Row)
    (h : ∀ k ∈ recognized_keys, List.lookup k r1 = List.lookup k r2) :
    convert_row r1 = convert_row r2 := by
  have hg : ∀ k ∈ recognized_keys, rowGet r1 k = rowGet r2 k := by
    intro k hk
    unfold rowGet
    rw [h k hk]
  have hnorm : normEdition r1 = normEdition r2 := by
    unfold normEdition
    rw [hg "Edition" (by decide)]
  simp only [convert_row]
  rw [hg "Count" (by decide), hg "Name" (by decide), hnorm,
    hg "Collector Number" (by decide), hg "Condition" (by decide),
    hg "Language" (by decide), hg "Foil" (by decide), hg "Tags" (by decide),
    hg "Purchase Price" (by decide)]

/-- Witness for `c10_depends_only_on_recognized_keys`: a row with only an
unrecognized key converts exactly like the empty row. -/
theorem c10_depends_only_on_recognized_keys_witness :
    (∀ k ∈ recognized_keys,
      List.lookup k ([("Junk", some "x")] : Row) = List.lookup k ([] : Row)) ∧
    convert_row [("Junk", some "x")] = convert_row [] :=
  ⟨by decide,
    c10_depends_only_on_recognized_keys [("Junk", some "x")] [] (by decide)⟩

/-- C8: the end-to-end example row: Count 2, Name Lightning Bolt, Edition
mir, Collector Number 150, Condition NM, Language English, Foil Foil, empty
Tags, Purchase Price $1.25 converts to the specified 19 values in
output-column order. -/
theorem c8_example_row :
    convert_row [
      ("Count", some "2"), ("Name", some "Lightning Bolt"),
      ("Edition", some "mir"), ("Collector Number", some "150"),
      ("Condition", some "NM"), ("Language", some "English"),
      ("Foil", some "Foil"), ("Tags", some ""), ("Purchase Price", some "$1.25")] =
    Except.ok [
      ("Count", some "2"), ("Tradelist Count", some "0"),
      ("Name", some "Lightning Bolt"), ("Edition", some "Mirage"),
      ("Edition Code", some "MI"), ("Card Number", some "150"),
      ("Condition", some "NM"), ("Language", some "English"),
      ("Foil", some "Foil"), ("Signed", some ""), ("Artist Proof", some ""),
      ("Altered Art", some ""), ("Misprint", some ""), ("Promo", some ""),
      ("Textless", some ""), ("Printing Id", some ""), ("Printing Note", some ""),
      ("Tags", some ""), ("My Price", some "$1.25")] := rfl

/-- C2 fails on the code: the `d.quantize(Decimal("0.01"))` call sits
outside the `try`, so its `InvalidOperation` escapes `format_price` (and
`convert_row`) for any value whose `Decimal` construction succeeds but whose
quantization signals — an infinity, a signaling NaN, or a magnitude needing
more than 28 digits at two decimals, such as "1E+30". -/
theorem c2_quantize_error_escapes :
    format_price (some "Infinity") = Except.error DecErr.invalidOperation ∧
    format_price (some "1E+30") = Except.error DecErr.invalidOperation ∧
    format_price (some "snan") = Except.error DecErr.invalidOperation ∧
    convert_row [("Purchase Price", some "Infinity")] =
      Except.error DecErr.invalidOperation :=
  ⟨rfl, rfl, rfl, rfl⟩

/-- A positive amount of fuel never yields an empty digit list. -/
theorem natDigitsAux_ne_nil (fuel n : Nat) : natDigitsAux (fuel + 1) n ≠ [] := by
  unfold natDigitsAux
  by_cases h : n < 10
  · simp [h]
  · simp [h]

/-- The digit list of a natural number is nonempty. -/
theorem natDigits_ne_nil (n : Nat) : natDigits n ≠ [] := natDigitsAux_ne_nil n n

/-- The character of a digit below ten is an ASCII digit. -/
theorem isAsciiDigit_digitChar (d : Nat) (h : d < 10) : isAsciiDigit (digitChar d) = true := by
  have ht : (Char.ofNat (48 + d)).toNat = 48 + d := char_toNat_ofNat _ (by omega)
  simp only [isAsciiDigit, digitChar, ht, decide_eq_true_eq]
  omega

/-- Every character produced by the digit expansion is an ASCII digit. -/
theorem natDigitsAux_digits (fuel : Nat) :
    ∀ n c, c ∈ natDigitsAux fuel n → isAsciiDigit c = true := by
  induction fuel with
  | zero => intro n c h; cases h
  | succ f ih =>
    intro n c h
    unfold natDigitsAux at h
    by_cases hn : n < 10
    · rw [if_pos hn] at h
      rw [List.mem_singleton.mp h]
      exact isAsciiDigit_digitChar n hn
    · rw [if_neg hn] at h
      rcases List.mem_append.mp h with h1 | h2
      · exact ih _ _ h1
      · rw [List.mem_singleton.mp h2]
        exact isAsciiDigit_digitChar _ (Nat.mod_lt _ (by omega))

/-- Every character of the digit list of a natural number is an ASCII digit. -/
theorem natDigits_digits (n : Nat) : ∀ c ∈ natDigits n, isAsciiDigit c = true :=
  fun c h => natDigitsAux_digits (n + 1) n c h

/-- Printing a finite `Decimal` with exponent `-2` gives an optional minus
sign, an integer part, and a dot followed by exactly two digit characters. -/
theorem decToString_finite_neg2 (sg : Bool) (c : Nat) :
    ∃ ip f1 f2, (decToString (.finite sg c (-2))).data =
      (if sg then ['-'] else []) ++ ip ++ '.' :: [f1, f2] ∧
      isAsciiDigit f1 = true ∧ isAsciiDigit f2 = true := by
  have hne := natDigits_ne_nil c
  have hdig := natDigits_digits c
  rcases hds : natDigits c with _ | ⟨d1, tl1⟩
  · exact absurd hds hne
  rcases tl1 with _ | ⟨d2, tl2⟩
  · refine ⟨['0'], '0', d1, ?_, by decide, hdig d1 (by rw [hds]; exact List.mem_singleton_self d1)⟩
    simp only [decToString, hds]
    norm_num
    cases sg <;> simp [String.data_append]
  rcases tl2 with _ | ⟨d3, tl3⟩
  · refine ⟨['0'], d1, d2, ?_,
      hdig d1 (by rw [hds]; simp), hdig d2 (by rw [hds]; simp)⟩
    simp only [decToString, hds]
    norm_num
    cases sg <;> simp [String.data_append]
  · obtain ⟨a, b, hab⟩ : ∃ a b, (d1 :: d2 :: d3 :: tl3).drop (tl3.length + 1) = [a, b] := by
      apply List.length_eq_two.mp
      simp [List.length_drop]
      omega
    refine ⟨(d1 :: d2 :: d3 :: tl3).take (tl3.length + 1), a, b, ?_, ?_, ?_⟩
    · simp only [decToString, hds, List.length_cons]
      have hcond : ((-2 : Int) ≤ 0 ∧ (-6 : Int) < -2 + ↑(tl3.length + 1 + 1 + 1)) := by
        constructor
        · decide
        · push_cast
          omega
      rw [if_pos hcond]
      have h1 : ¬((-2 : Int) + ↑(tl3.length + 1 + 1 + 1) ≤ 0) := by
        push_cast
        omega
      rw [if_neg h1, if_neg h1]
      have h2 : ¬((↑(tl3.length + 1 + 1 + 1) : Int) ≤ -2 + ↑(tl3.length + 1 + 1 + 1)) := by
        push_cast
        omega
      rw [if_neg h2, if_neg h2]
      have ht : ((-2 : Int) + ↑(tl3.length + 1 + 1 + 1)).toNat = tl3.length + 1 := by
        push_cast
        omega
      rw [ht, hab]
      cases sg <;> simp [String.data_append]
    · refine hdig a ?_
      rw [hds]
      exact List.drop_subset _ _ (hab ▸ (by simp : a ∈ [a, b]))
    · refine hdig b ?_
      rw [hds]
      exact List.drop_subset _ _ (hab ▸ (by simp : b ∈ [a, b]))

/-- Prepending `$` to the printing of a finite quantized `Decimal` always
matches the dollars-and-two-fractional-digits format. -/
theorem isDollarTwoFrac_finite (sg : Bool) (c : Nat) :
    isDollarTwoFrac ("$" ++ decToString (.finite sg c (-2))) = true := by
  obtain ⟨ip, f1, f2, hdata, hf1, hf2⟩ := decToString_finite_neg2 sg c
  unfold isDollarTwoFrac
  have hd : ("$" ++ decToString (.finite sg c (-2))).data =
      '$' :: (decToString (.finite sg c (-2))).data := by
    simp [String.data_append]
  rw [hd, hdata]
  simp [List.reverse_append, hf1, hf2]

/-- Prepending `$` to the printing of a quiet NaN yields a string with no
decimal point at all. -/
theorem nan_no_dot (sg : Bool) (d : Nat) :
    '.' ∉ ("$" ++ decToString (.nan sg false d)).data := by
  intro hmem
  by_cases hd0 : (d == 0) = true
  · cases sg <;> simp [decToString, String.data_append, hd0] at hmem
  · cases sg <;> simp [decToString, String.data_append, hd0] at hmem <;>
      exact absurd (natDigits_digits d '.' hmem) (by decide)

/-- A successful quantize result is a finite value with exponent `-2` or a
quiet NaN. -/
theorem decQuantize2_ok_shape (d q : Dec) (h : decQuantize2 d = Except.ok q) :
    (∃ sg c, q = .finite sg c (-2)) ∨ (∃ sg dg, q = .nan sg false dg) := by
  cases d with
  | finite sg c e =>
    left
    simp only [decQuantize2] at h
    set c2 := if -2 ≤ e then c * 10 ^ (e + 2).toNat else halfEvenDiv c (-(e + 2)).toNat with hc2
    by_cases hc : 10 ^ 28 ≤ c2
    · rw [if_pos hc] at h
      cases h
    · rw [if_neg hc] at h
      exact ⟨sg, c2, ((Except.ok.injEq _ _).mp h).symm⟩
  | infinite sg => cases h
  | nan sg sig dg =>
    cases sig
    · right
      exact ⟨sg, dg, ((Except.ok.injEq _ _).mp h).symm⟩
    · cases h

/-- Every string `format_price` returns successfully either matches the
dollars-and-two-fractional-digits format or — for NaN inputs — contains no
decimal point. -/
theorem format_price_ok_shape (v : PyStr) (s : String)
    (h : format_price v = Except.ok s) :
    isDollarTwoFrac s = true ∨ '.' ∉ s.data := by
  match v with
  | none =>
    left
    have h2 : (Except.ok "$0.00" : Except DecErr String) = Except.ok s := h
    rw [← (Except.ok.injEq _ _).mp h2]
    decide
  | some str =>
    simp only [format_price] at h
    split at h
    · left
      rw [← ((Except.ok.injEq _ _).mp h)]
      decide
    · split at h
      · left
        rw [← ((Except.ok.injEq _ _).mp h)]
        decide
      · rename_i d hparse
        split at h
        · cases h
        · rename_i q hq
          have hs : s = "$" ++ decToString q := ((Except.ok.injEq _ _).mp h).symm
          rcases decQuantize2_ok_shape d q hq with ⟨sg, c, hfin⟩ | ⟨sg, dg, hnan⟩
          · left
            rw [hs, hfin]
            exact isDollarTwoFrac_finite sg c
          · right
            rw [hs, hnan]
            exact nan_no_dot sg dg

/-- C3 counterexample: `format_price` on "NaN" succeeds and returns "$NaN",
which is not `$` followed by a decimal with two fractional digits — it
contains no decimal point at all — so "every successful result is formatted
as $ followed by the decimal with exactly two fractional digits" fails. -/
theorem c3_counterexample :
    format_price (some "NaN") = Except.ok "$NaN" ∧
    isDollarTwoFrac "$NaN" = false ∧ '.' ∉ "$NaN".data :=
  ⟨rfl, by decide, by decide⟩

/-- C3 amended: the value table holds — `format_price` maps "" and `None`
to "$0.00", "$3.5" to "$3.50", "abc" to "$0.00", and "3.005" rounds
half-even to "$3.00" — and every successful result is `$` followed by a
decimal with exactly two fractional digits, except for NaN inputs, whose
result contains no decimal point (such as "$NaN"). -/
theorem c3_format_price_values :
    format_price (some "") = Except.ok "$0.00" ∧
    format_price none = Except.ok "$0.00" ∧
    format_price (some "$3.5") = Except.ok "$3.50" ∧
    format_price (some "abc") = Except.ok "$0.00" ∧
    format_price (some "3.005") = Except.ok "$3.00" ∧
    ∀ v s, format_price v = Except.ok s →
      isDollarTwoFrac s = true ∨ '.' ∉ s.data :=
  ⟨rfl, rfl, rfl, rfl, rfl, format_price_ok_shape⟩

/-- Witness for the universally quantified conjunct of
`c3_format_price_values` at a concrete successful input. -/
theorem c3_format_price_values_witness :
    format_price (some "$3.5") = Except.ok "$3.50" ∧
    (isDollarTwoFrac "$3.50" = true ∨ '.' ∉ "$3.50".data) :=
  ⟨rfl, c3_format_price_values.2.2.2.2.2 (some "$3.5") "$3.50" rfl⟩
